import Mathlib

/-!
Verification of the request-dispatch core and the wallpaper application of
the repository. The request core's declaration file is
`src/unnamed/part_001` (the `.d.ts` of the `Request` namespace); its bundled
implementation (`src/utils/ajax.ts` and `src/core/request.ts`: `ajaxFetch`,
`ajaxXHR`, `handleFetchResponse`, `handleError`, `retryRequest`, `ajax` and
the verb wrappers) ships inside
`src/node_modules/@butility/media/blob.d.ts` and is the source the
definitions below embed. The wallpaper state machine
(`src/unnamed/part_006`) and the DOM attribute helper
(`src/node_modules/@butility/dom/attribute.js`) are embedded from their
actual source as well. Platform builtins consumed by that code
(`encodeURIComponent`, `JSON` parsing inside `response.json()` and
`xhr.response`) are modelled after their ECMAScript/WHATWG semantics.
-/

namespace Wallpaper001

/-- Response types accepted by the `responseType` option
(`"text" | "json" | "blob" | "arraybuffer" | "document"`), from the
declaration of `AjaxOptions.responseType`. -/
inductive RespType
  | text
  | json
  | blob
  | arraybuffer
  | document
deriving DecidableEq, Repr

/-- The `AjaxOptions` interface from `src/unnamed/part_001`. Optional fields
are `Option`; the callback-typed fields (`success`, `error`, `onProgress`)
and `abortSignal` are modelled by presence flags, which is all the
specified behaviour depends on. `method` and `url` are declared mandatory
in TypeScript but a JavaScript caller can omit them, so they are `Option`
here (the spec's §4.1 error condition contemplates their absence). -/
structure AjaxOptions where
  method : Option String := none
  url : Option String := none
  headers : List (String × String) := []
  data : Option String := none
  hasSuccessCb : Bool := false
  hasErrorCb : Bool := false
  timeout : Option Nat := none
  retries : Option Nat := none
  retryDelay : Option Nat := none
  responseType : Option RespType := none
  hasProgressCb : Bool := false
  hasAbortSignal : Bool := false
  useFetch : Option Bool := none
deriving DecidableEq

/-- The kind of value `ajax` (and each verb wrapper) returns to the caller:
`void | Promise<void>` in the declaration. -/
inductive ReturnKind
  | promiseVoid
  | voidRet
deriving DecidableEq, Repr

/-- From the declaration of `ajax` in `src/unnamed/part_001`:
"@returns A promise if `useFetch` is `true`, otherwise `void`." The
declaration of `useFetch` documents its default as `false`. -/
def ajaxReturnKind (o : AjaxOptions) : ReturnKind :=
  if o.useFetch.getD false then ReturnKind.promiseVoid else ReturnKind.voidRet

/-- Return kind of `get(url, data, options)`: the wrapper fixes `method`
and `url` and forwards the rest of the options to `ajax`, so the returned
kind is decided by the forwarded `useFetch` flag. -/
def getReturnKind (url : String) (o : AjaxOptions) : ReturnKind :=
  ajaxReturnKind { o with method := some "GET", url := some url }

/-- The two transports of the spec's §2: Transport A (promise-based
fetch-like client) and Transport B (event-driven XMLHttpRequest client). -/
inductive Transport
  | fetchTransport
  | xhrTransport
deriving DecidableEq, Repr

/-- Transport selection: `ajax` (blob.d.ts:262-268) runs
`if (options.useFetch) return ajaxFetch(options); else return ajaxXHR(options);`
— an absent `useFetch` is falsy, so the event-driven transport is the
default. -/
def selectTransport (useFetch : Bool) : Transport :=
  if useFetch then Transport.fetchTransport else Transport.xhrTransport

/-- What a dispatch step does: a fast configuration failure (the behaviour
the spec asserts) or a call into a transport (what the code can do). -/
inductive DispatchAction
  | configFailure
  | callTransport (t : Transport)
deriving DecidableEq

/-- The body of `ajax` (blob.d.ts:262-268): no validation of `url` or
`method` whatsoever — the selected transport is called unconditionally
(`ajaxXHR` goes on to run `xhr.open(options.method, options.url, true)` and
`xhr.send` even when both are `undefined`). -/
def ajaxDispatch (o : AjaxOptions) : DispatchAction :=
  DispatchAction.callTransport (selectTransport (o.useFetch.getD false))

/-- Number of underlying transport calls a dispatch step starts. -/
def transportCallsStarted : DispatchAction → Nat
  | DispatchAction.configFailure => 0
  | DispatchAction.callTransport _ => 1

/-! ### Percent-encoding and query-string serialization (spec §4.1) -/

/-- Characters `encodeURIComponent` leaves unescaped:
`A-Z a-z 0-9 - _ . ! ~ * ' ( )`. -/
def unreservedEComp (c : Char) : Bool :=
  c.isAlpha || c.isDigit ||
    ([ '-', '_', '.', '!', '~', '*', Char.ofNat 39, '(', ')' ] : List Char).contains c

/-- Uppercase hexadecimal digit for a value below 16. -/
def hexUpper (n : Nat) : Char :=
  if n < 10 then Char.ofNat (48 + n) else Char.ofNat (55 + n)

/-- UTF-8 byte sequence of a character. -/
def utf8Bytes (c : Char) : List Nat :=
  let n := c.toNat
  if n < 128 then [n]
  else if n < 2048 then [192 + n / 64, 128 + n % 64]
  else if n < 65536 then [224 + n / 4096, 128 + n / 64 % 64, 128 + n % 64]
  else [240 + n / 262144, 128 + n / 4096 % 64, 128 + n / 64 % 64, 128 + n % 64]

/-- `%HH` escape of one byte, uppercase hex. -/
def pctByte (b : Nat) : String :=
  String.mk ['%', hexUpper (b / 16 % 16), hexUpper (b % 16)]

/-- Model of the platform builtin `encodeURIComponent` (ECMA-262), which
`get`/`deleteRequest` call on every key and value: unreserved characters
pass through, every other character is percent-encoded per UTF-8 byte. -/
def encodeURIComponent (s : String) : String :=
  String.join (s.toList.map fun c =>
    if unreservedEComp c then String.singleton c
    else String.join ((utf8Bytes c).map pctByte))

/-- One serialized pair, from the mapper in `get`/`deleteRequest`
(blob.d.ts:270-272, 308-310):
`([key, value]) => encodeURIComponent(key)=encodeURIComponent(value)`. -/
def queryPairString (kv : String × String) : String :=
  encodeURIComponent kv.1 ++ "=" ++ encodeURIComponent kv.2

/-- `queryString` of `get`/`deleteRequest`: the serialized pairs joined
with `&`. -/
def queryStringOf (kvs : List (String × String)) : String :=
  String.intercalate "&" (kvs.map queryPairString)

/-- `fullUrl` of `get`/`deleteRequest` (blob.d.ts:273, 311):
`queryString ? url?queryString : url` — the empty query string is falsy,
leaving the URL untouched. -/
def fullUrlOf (url : String) (kvs : List (String × String)) : String :=
  if queryStringOf kvs = "" then url else url ++ "?" ++ queryStringOf kvs

/-- The request a verb wrapper hands to `ajax`: method, final URL, and the
body (if any) that will be sent. -/
structure SentRequest where
  method : String
  url : String
  body : Option String
deriving DecidableEq

/-- `get` (blob.d.ts:269-279): fixes `method: "GET"`, serializes the `data`
argument into the URL query string, and forwards no `data` field to `ajax`
— so no body is sent (both transports take the body from `options.data`,
and `ajaxFetch` additionally skips the body for GET). -/
def getRequest (url : String) (kvs : List (String × String)) : SentRequest :=
  { method := "GET", url := fullUrlOf url kvs, body := none }

/-- `deleteRequest` (blob.d.ts:307-317): fixes `method: "DELETE"`,
serializes the `data` argument into the URL query string, and forwards no
`data` field to `ajax` — no body is sent. -/
def deleteRequest (url : String) (kvs : List (String × String)) : SentRequest :=
  { method := "DELETE", url := fullUrlOf url kvs, body := none }

/-! ### The XHR retry loop (`retryRequest`, blob.d.ts:240-251) -/

/-- A JavaScript number-or-undefined, as the `retries` option flows through
the retry loop: `undefined` when never set, `NaN` once `undefined - 1` has
been computed, or an integer. -/
inductive JsNum
  | undef
  | nan
  | num (n : Int)
deriving DecidableEq

/-- The `options.retries` value as JavaScript sees it. -/
def jsRetriesOf (o : AjaxOptions) : JsNum :=
  match o.retries with
  | some n => JsNum.num n
  | none => JsNum.undef

/-- `options.retries || 1`: `undefined`, `NaN` and `0` are falsy and give
`1`; any other number passes through. -/
def jsOrOne : JsNum → Int
  | JsNum.undef => 1
  | JsNum.nan => 1
  | JsNum.num n => if n = 0 then 1 else n

/-- The retry condition of `retryRequest`'s `onloadend` handler with its
`attempt` parameter, which is always the default `1` (no caller ever passes
another value): `attempt <= (options.retries || 1)`. -/
def retryCondHolds (retries : JsNum) : Bool :=
  1 ≤ jsOrOne retries

/-- `options.retries - 1`, as computed for the re-invocation
`ajaxXHR({ ...options, retries: options.retries - 1 })`:
`undefined - 1` and `NaN - 1` are `NaN`. -/
def jsMinusOne : JsNum → JsNum
  | JsNum.undef => JsNum.nan
  | JsNum.nan => JsNum.nan
  | JsNum.num n => JsNum.num (n - 1)

/-- The attempt chain `ajaxXHR` + `retryRequest` produce
(blob.d.ts:168-209, 240-251), counting attempts. `statusOf k` is
`xhr.status` when attempt `k` reaches `onloadend` (0 for a network error or
timeout, the HTTP status otherwise). After each attempt, `onloadend`
re-invokes `ajaxXHR` with `retries - 1` iff `xhr.status >= 400 &&
1 <= (options.retries || 1)`; nothing else stops the chain, so the
recursion is fuel-bounded — with `retries` unset the chain never
terminates on its own and consumes any amount of fuel. The abort signal is
not an argument: `ajaxXHR` and `retryRequest` never read
`options.abortSignal`. -/
def xhrRun (statusOf : Nat → Nat) : Nat → JsNum → Nat → Nat
  | 0, _, made => made
  | fuel + 1, retries, made =>
    if 400 ≤ statusOf (made + 1) && retryCondHolds retries then
      xhrRun statusOf fuel (jsMinusOne retries) (made + 1)
    else made + 1

/-- One event-driven logical call from a caller-supplied options object:
the attempt chain starting from `options.retries` as JavaScript reads it.
The options record is taken whole (rather than just its `retries` field) to
expose which fields the XHR path consults — in particular the theorems
below show the result is independent of `hasAbortSignal`. -/
def xhrAttemptsRun (statusOf : Nat → Nat) (fuel : Nat) (o : AjaxOptions) : Nat :=
  xhrRun statusOf fuel (jsRetriesOf o) 0

/-- The delay before a scheduled retry (blob.d.ts:248):
`options.retryDelay || 1e3` — unset (and `0`) give 1000 ms. -/
def retryDelayMs (o : AjaxOptions) : Nat :=
  match o.retryDelay with
  | some d => if d = 0 then 1000 else d
  | none => 1000

/-! ### Response decoding (spec §4.5) -/

/-- JSON values, as produced by the platform JSON parser. -/
inductive Json
  | null
  | bool (b : Bool)
  | num (n : Int)
  | str (s : String)
  | arr (xs : List Json)
  | obj (kvs : List (String × Json))

/-- The double-quote character. -/
def chQuote : Char := Char.ofNat 34

/-- The opening-brace character of a JSON object. -/
def chLBrace : Char := Char.ofNat 123

/-- The closing-brace character of a JSON object. -/
def chRBrace : Char := Char.ofNat 125

/-- Drop leading JSON whitespace. -/
def skipWs : List Char → List Char
  | c :: cs =>
      if c = ' ' || c = Char.ofNat 9 || c = Char.ofNat 10 || c = Char.ofNat 13 then
        skipWs cs
      else c :: cs
  | [] => []

/-- Strip an expected literal token from the front of the input. -/
def stripTok : List Char → List Char → Option (List Char)
  | [], cs => some cs
  | t :: ts, c :: cs => if c = t then stripTok ts cs else none
  | _ :: _, [] => none

/-- Take a maximal run of decimal digits. -/
def takeDigits : List Char → (List Char × List Char)
  | c :: cs =>
      if c.isDigit then
        let p := takeDigits cs
        (c :: p.1, p.2)
      else ([], c :: cs)
  | [] => ([], [])

/-- Decimal value of a digit run. -/
def digitsToNat (ds : List Char) : Nat :=
  ds.foldl (fun a c => a * 10 + (c.toNat - 48)) 0

/-- Take a JSON string body up to the closing quote (no escape sequences in
this model). -/
def takeStr : List Char → Option (List Char × List Char)
  | [] => none
  | c :: cs =>
      if c = chQuote then some ([], cs)
      else (takeStr cs).map fun p => (c :: p.1, p.2)

/-- Parsing mode: a single value, remaining array items, or remaining
object members. -/
inductive PMode
  | val
  | arrItems
  | objItems
deriving DecidableEq

/-- Modelled from the spec (§4.5 and §6: the platform JSON parser is a
consumed collaborator): a recursive-descent JSON parser over
null/booleans/integers/strings/arrays/objects, fuel-bounded. -/
def parseStep : Nat → PMode → List Char → Option (Json × List Char)
  | 0, _, _ => none
  | fuel + 1, PMode.val, cs0 =>
    let cs := skipWs cs0
    match cs with
    | [] => none
    | c :: rest =>
      if c = chQuote then (takeStr rest).map fun p => (Json.str (String.mk p.1), p.2)
      else if c = '[' then
        match skipWs rest with
        | c2 :: r2 =>
            if c2 = ']' then some (Json.arr [], r2)
            else parseStep fuel PMode.arrItems (c2 :: r2)
        | [] => none
      else if c = chLBrace then
        match skipWs rest with
        | c2 :: r2 =>
            if c2 = chRBrace then some (Json.obj [], r2)
            else parseStep fuel PMode.objItems (c2 :: r2)
        | [] => none
      else if c = '-' then
        match takeDigits rest with
        | ([], _) => none
        | (ds, r) => some (Json.num (-(digitsToNat ds : Int)), r)
      else if c.isDigit then
        let p := takeDigits (c :: rest)
        some (Json.num (digitsToNat p.1), p.2)
      else
        match stripTok "true".toList cs with
        | some r => some (Json.bool true, r)
        | none =>
          match stripTok "false".toList cs with
          | some r => some (Json.bool false, r)
          | none =>
            match stripTok "null".toList cs with
            | some r => some (Json.null, r)
            | none => none
  | fuel + 1, PMode.arrItems, cs =>
    match parseStep fuel PMode.val cs with
    | none => none
    | some (v, r) =>
      match skipWs r with
      | c :: r2 =>
          if c = ',' then
            match parseStep fuel PMode.arrItems r2 with
            | some (Json.arr vs, r3) => some (Json.arr (v :: vs), r3)
            | _ => none
          else if c = ']' then some (Json.arr [v], r2)
          else none
      | [] => none
  | fuel + 1, PMode.objItems, cs =>
    match skipWs cs with
    | c :: rest =>
      if c = chQuote then
        match takeStr rest with
        | none => none
        | some (k, r) =>
          match skipWs r with
          | c2 :: r2 =>
            if c2 = ':' then
              match parseStep fuel PMode.val r2 with
              | none => none
              | some (v, r3) =>
                match skipWs r3 with
                | c3 :: r5 =>
                    if c3 = ',' then
                      match parseStep fuel PMode.objItems r5 with
                      | some (Json.obj kvs, r6) =>
                          some (Json.obj ((String.mk k, v) :: kvs), r6)
                      | _ => none
                    else if c3 = chRBrace then
                      some (Json.obj [(String.mk k, v)], r5)
                    else none
                | [] => none
            else none
          | [] => none
      else none
    | [] => none

/-- Parse a whole JSON document; trailing non-whitespace rejects. -/
def parseJson (s : String) : Option Json :=
  match parseStep (s.length + 1) PMode.val s.toList with
  | some (v, r) => if (skipWs r).isEmpty then some v else none
  | none => none

/-- UTF-8 bytes of a string (for the blob / arraybuffer bodies). -/
def strBytes (s : String) : List Nat :=
  (s.toList.map utf8Bytes).flatten

/-- A parsed document, as the platform HTML parser would produce (browsers
parse any input into a document, so this never fails). -/
structure DomDoc where
  html : String
deriving DecidableEq

/-- The decoded body handed to the success callback, by declared response
type. -/
inductive DecodedBody
  | text (s : String)
  | json (j : Json)
  | blob (bytes : List Nat)
  | arraybuffer (bytes : List Nat)
  | document (d : DomDoc)

/-- What reaches the caller's callbacks (or the console). `successNull` is
the XHR path handing `xhr.response = null` to the success callback after a
malformed JSON body. -/
inductive Delivered
  | success (v : DecodedBody)
  | successNull
  | errorCb (msg : String)
  | logged (msg : String)

/-- `handleError` (blob.d.ts:233-239): the error goes to `options.error`
when supplied, otherwise to `console.error`. -/
def handleError (hasErrorCb : Bool) (msg : String) : Delivered :=
  if hasErrorCb then Delivered.errorCb msg else Delivered.logged msg

/-- `handleFetchResponse` (blob.d.ts:210-224): throws (`Except.error`) on a
non-ok response; then switches on the declared type — `"json"` awaits
`response.json()` (which rejects on a malformed body), `"blob"` and
`"arraybuffer"` read the bytes, and everything else — including
`"document"`, which has no case — falls through to `response.text()`. -/
def handleFetchResponse (rt : Option RespType) (ok : Bool) (status : Nat)
    (body : String) : Except String DecodedBody :=
  if !ok then Except.error ("HTTP error: " ++ toString status)
  else
    match rt with
    | some RespType.json =>
      match parseJson body with
      | some j => Except.ok (DecodedBody.json j)
      | none => Except.error "SyntaxError: Unexpected token in JSON"
    | some RespType.blob => Except.ok (DecodedBody.blob (strBytes body))
    | some RespType.arraybuffer => Except.ok (DecodedBody.arraybuffer (strBytes body))
    | _ => Except.ok (DecodedBody.text body)

/-- What `await fetch(...)` settles to: a response (with its `ok` flag,
status, and body text) or a rejection (network failure, CORS, abort). -/
inductive FetchOutcome
  | resp (ok : Bool) (status : Nat) (body : String)
  | rejected (err : String)

/-- `ajaxFetch` (blob.d.ts:150-167): the whole body — the fetch, the
decode, and the success call — runs inside
`try { ... } catch (error) { handleError(options, error); }`, so every
rejection or throw is converted into a `handleError` delivery.
`Except.error` in the result would be an exception escaping to the caller;
the catch structure makes every branch `Except.ok`. -/
def ajaxFetchExc (hasSuccessCb hasErrorCb : Bool) (rt : Option RespType)
    (outcome : FetchOutcome) : Except String (List Delivered) :=
  match outcome with
  | FetchOutcome.rejected err => Except.ok [handleError hasErrorCb err]
  | FetchOutcome.resp ok status body =>
    match handleFetchResponse rt ok status body with
    | Except.ok v =>
        Except.ok (if hasSuccessCb then [Delivered.success v] else [])
    | Except.error e => Except.ok [handleError hasErrorCb e]

/-- The `onload` handler of `ajaxXHR` (blob.d.ts:187-199). For a 2xx
status, when a success callback exists it reads
`options.responseType === "json" ? xhr.response : xhr.responseText`:
`xhr.response` is the parsed JSON or `null` when parsing failed, while the
`xhr.responseText` getter throws InvalidStateError whenever `responseType`
was set to anything but `""`/`"text"` (i.e. for blob, arraybuffer and
document). The handler has no try/catch, so that throw escapes
(`Except.error`). A non-2xx status goes to `handleError` with the
`Request failed with status ...` message and reads nothing. -/
def xhrOnload (hasSuccessCb hasErrorCb : Bool) (rt : Option RespType)
    (status : Nat) (statusText : String) (body : String) :
    Except String (List Delivered) :=
  if 200 ≤ status && status < 300 then
    if hasSuccessCb then
      match rt with
      | some RespType.json =>
        match parseJson body with
        | some j => Except.ok [Delivered.success (DecodedBody.json j)]
        | none => Except.ok [Delivered.successNull]
      | some RespType.text => Except.ok [Delivered.success (DecodedBody.text body)]
      | none => Except.ok [Delivered.success (DecodedBody.text body)]
      | some _ =>
        Except.error
          "InvalidStateError: responseText is only available if responseType is a text type"
    else Except.ok []
  else
    Except.ok [handleError hasErrorCb
      ("Request failed with status " ++ toString status ++ ": " ++ statusText)]

/-- Terminal transport-level events of one XHR attempt: `ajaxXHR` registers
`onload`, `onerror` and `ontimeout` (and `onloadend` for the retry chain);
no abort handler exists because nothing ever aborts the XHR. -/
inductive XhrEvt
  | loaded (status : Nat) (statusText : String) (body : String)
  | netError
  | timedOut (ms : Nat)

/-- Settling of one XHR attempt by its terminal event (blob.d.ts:187-205):
`onerror` and `ontimeout` route their fixed messages through
`handleError`; `onload` behaves as `xhrOnload`. -/
def xhrSettle (hasSuccessCb hasErrorCb : Bool) (rt : Option RespType) :
    XhrEvt → Except String (List Delivered)
  | XhrEvt.loaded status statusText body =>
      xhrOnload hasSuccessCb hasErrorCb rt status statusText body
  | XhrEvt.netError =>
      Except.ok [handleError hasErrorCb "Request failed due to network error."]
  | XhrEvt.timedOut ms =>
      Except.ok [handleError hasErrorCb
        ("Request timed out after " ++ toString ms ++ "ms")]

/-- Whether a settling completed without an escaping exception. -/
def settleOk : Except String (List Delivered) → Bool
  | Except.ok _ => true
  | Except.error _ => false

/-! ### The wallpaper application state machine (`src/unnamed/part_006`) -/

/-- The mutable state of the wallpaper app: the `wallpaperHistory` array of
blob URLs and the `currentIndex` cursor (initially `-1`). -/
structure WallpaperState where
  wallpaperHistory : List String
  currentIndex : Int
deriving DecidableEq

/-- The initial state: `const wallpaperHistory = []; let currentIndex = -1`. -/
def initWallpaperState : WallpaperState := { wallpaperHistory := [], currentIndex := -1 }

/-- JavaScript `arr.splice(start)` keeps the elements before `start`
(negative `start` counts from the end, clamped at 0). -/
def spliceKeep (l : List String) (start : Int) : List String :=
  let s : Int :=
    if start < 0 then max ((l.length : Int) + start) 0
    else min start (l.length : Int)
  l.take s.toNat

/-- The `success` callback of `setRandomWallpaper`:
`wallpaperHistory.splice(currentIndex + 1); wallpaperHistory.push(blobUrl);
currentIndex++`. -/
def applyFetchSuccess (s : WallpaperState) (blobUrl : String) : WallpaperState :=
  { wallpaperHistory := spliceKeep s.wallpaperHistory (s.currentIndex + 1) ++ [blobUrl]
    currentIndex := s.currentIndex + 1 }

/-- `goBack()`: decrement the cursor only when `currentIndex > 0` (the
image-element update is not part of the history state). -/
def goBack (s : WallpaperState) : WallpaperState :=
  if 0 < s.currentIndex then { s with currentIndex := s.currentIndex - 1 } else s

/-- `goForward()`: advance the cursor when forward history exists;
otherwise `setRandomWallpaper()` is started and the state is unchanged
until its success callback runs (a separate event below). -/
def goForward (s : WallpaperState) : WallpaperState :=
  if s.currentIndex < (s.wallpaperHistory.length : Int) - 1 then
    { s with currentIndex := s.currentIndex + 1 }
  else s

/-- The user-visible events of the app: back/forward clicks, and the
asynchronous completion of a wallpaper fetch (success or failure; the
failure path only logs). -/
inductive WpEvent
  | back
  | forward
  | fetchOk (url : String)
  | fetchFail
deriving DecidableEq

/-- One event step of the wallpaper app. -/
def wpStep (s : WallpaperState) (e : WpEvent) : WallpaperState :=
  match e with
  | WpEvent.back => goBack s
  | WpEvent.forward => goForward s
  | WpEvent.fetchOk u => applyFetchSuccess s u
  | WpEvent.fetchFail => s

/-- Run a sequence of events from the initial state. -/
def runEvents (evs : List WpEvent) : WallpaperState :=
  evs.foldl wpStep initWallpaperState

/-- The history/cursor invariant: `-1 ≤ currentIndex ≤ history.length - 1`. -/
abbrev WpInv (s : WallpaperState) : Prop :=
  -1 ≤ s.currentIndex ∧ s.currentIndex ≤ (s.wallpaperHistory.length : Int) - 1

/-! ### `setAttribute` (`src/node_modules/@butility/dom/attribute.js`) -/

/-- The `attribute` argument of `setAttribute`. `typeof` distinguishes only
non-objects; `null` passes the `typeof` check (`typeof null === "object"`)
but `Object.entries(null)` then throws. -/
inductive AttrArg
  | nonObject (desc : String)
  | nullArg
  | entries (kvs : List (String × String))

/-- The options bag of `setAttribute`. The callback-valued options are pure
functions here (the analysed property assumes the caller's callbacks do not
throw); `onError` and `onAttributeSet` are observed through the returned
trace. `addPfx` embeds the source's string option that prefixes every
attribute name (empty string means no prefixing, as in the source
default). -/
structure SetAttrOptions where
  whitelist : Option (List String) := none
  blacklist : Option (List String) := none
  validate : Option (String → String → Bool) := none
  transformValue : Option (String → String → String) := none
  addPfx : String := ""
  log : Bool := false

/-- `shouldSetAttribute(key)`: the whitelist must contain the key when
present; the blacklist must not. -/
def shouldSetAttr (o : SetAttrOptions) (key : String) : Bool :=
  (match o.whitelist with
   | some wl => wl.contains key
   | none => true) &&
  (match o.blacklist with
   | some bl => !(bl.contains key)
   | none => true)

/-- Outcome of processing a single attribute entry when it does not throw:
the early `return` taken when the white/blacklist skips the key, a plain
`element.setAttribute` write, or a `dataset` write. -/
inductive EntryOut
  | skipReturn
  | setPlain (name value : String)
  | setData (key value : String)

/-- Body of the per-entry `try` block of `setAttribute`:
prefixing, white/blacklist check (whose skip is a `return` from the whole
function in the source), the `validate` throw, `transformValue`, and the
native write (a `dataset` assignment for `data-` names, otherwise
`element.setAttribute`), either of which may throw — modelled by the
caller-supplied `nsa`/`nsd` returning `Except`. -/
def processAttrEntry (nsa nsd : String → String → Except String Unit)
    (o : SetAttrOptions) (name val : String) : Except String EntryOut :=
  let finalName := if o.addPfx ≠ "" then o.addPfx ++ name else name
  if !(shouldSetAttr o finalName) then Except.ok EntryOut.skipReturn
  else
    match o.validate with
    | some v =>
        if !(v finalName val) then
          Except.error ("Validation failed for attribute: " ++ finalName ++
            " with value: " ++ val)
        else
          let tv := match o.transformValue with
            | some f => f finalName val
            | none => val
          if "data-".isPrefixOf finalName then
            match nsd (finalName.drop 5) tv with
            | Except.ok _ => Except.ok (EntryOut.setData (finalName.drop 5) tv)
            | Except.error e => Except.error e
          else
            match nsa finalName tv with
            | Except.ok _ => Except.ok (EntryOut.setPlain finalName tv)
            | Except.error e => Except.error e
    | none =>
        let tv := match o.transformValue with
          | some f => f finalName val
          | none => val
        if "data-".isPrefixOf finalName then
          match nsd (finalName.drop 5) tv with
          | Except.ok _ => Except.ok (EntryOut.setData (finalName.drop 5) tv)
          | Except.error e => Except.error e
        else
          match nsa finalName tv with
          | Except.ok _ => Except.ok (EntryOut.setPlain finalName tv)
          | Except.error e => Except.error e

/-- Observable trace of one `setAttribute` call: the messages delivered to
`onError` (which defaults to `console.error`), the successful plain and
`dataset` writes, and how many times `onAttributeSet` ran. -/
structure SetAttrTrace where
  errorsDelivered : List String := []
  attrsSet : List (String × String) := []
  dataSet : List (String × String) := []
  onAttributeSetCalls : Nat := 0

/-- The `for ... of Object.entries(attribute)` loop: each entry's throw is
caught by the inner `catch`, delivered to `onError`, and the loop moves on;
a white/blacklisted key makes the source `return` from the whole function
(first component `false` = early return, skipping `onAttributeSet`). -/
def attrLoop (nsa nsd : String → String → Except String Unit)
    (o : SetAttrOptions) : List (String × String) → SetAttrTrace → Bool × SetAttrTrace
  | [], acc => (true, acc)
  | (k, v) :: rest, acc =>
    match processAttrEntry nsa nsd o k v with
    | Except.ok EntryOut.skipReturn => (false, acc)
    | Except.ok (EntryOut.setPlain n tv) =>
        attrLoop nsa nsd o rest { acc with attrsSet := acc.attrsSet ++ [(n, tv)] }
    | Except.ok (EntryOut.setData n tv) =>
        attrLoop nsa nsd o rest { acc with dataSet := acc.dataSet ++ [(n, tv)] }
    | Except.error e =>
        attrLoop nsa nsd o rest
          { acc with errorsDelivered := acc.errorsDelivered ++ [e] }

/-- The outer `try` block of `setAttribute`: the `HTMLElement` check, the
`typeof` check, `Object.entries`, the entry loop, and the final
`onAttributeSet(settedAttributes)` call (skipped by the in-loop `return`). -/
def setAttrBody (elemIsHtml : Bool) (nsa nsd : String → String → Except String Unit)
    (attr : AttrArg) (o : SetAttrOptions) : Except String SetAttrTrace :=
  if !elemIsHtml then
    Except.error "TypeError: Provided element is not a valid HTMLElement."
  else
    match attr with
    | AttrArg.nonObject _ =>
        Except.error "Error: Attribute name must be a non-empty string."
    | AttrArg.nullArg =>
        Except.error "TypeError: Cannot convert undefined or null to object"
    | AttrArg.entries kvs =>
        match attrLoop nsa nsd o kvs {} with
        | (true, t) => Except.ok { t with onAttributeSetCalls := t.onAttributeSetCalls + 1 }
        | (false, t) => Except.ok t

/-- `setAttribute` itself: the whole body runs under the outer
`try { ... } catch (error) { onError(error) }`, so a throw from any check
becomes an `onError` delivery and the function returns normally. The
result is `Except.error` only if an exception would escape to the caller. -/
def setAttributeExc (elemIsHtml : Bool)
    (nsa nsd : String → String → Except String Unit)
    (attr : AttrArg) (o : SetAttrOptions) : Except String SetAttrTrace :=
  match setAttrBody elemIsHtml nsa nsd attr o with
  | Except.ok t => Except.ok t
  | Except.error e => Except.ok { errorsDelivered := [e] }

/-- Whether a `setAttribute` run completed without an escaping exception. -/
def setAttrOk : Except String SetAttrTrace → Bool
  | Except.ok _ => true
  | Except.error _ => false

/-- A concrete configuration that selects the event-driven transport
explicitly (`useFetch: false`). -/
def xhrExampleOptions : AjaxOptions :=
  { method := some "GET", url := some "/x", useFetch := some false }

/-! ## Helper lemmas -/

theorem xhrRun_nan_all500 (fuel : Nat) :
    ∀ made, xhrRun (fun _ => 500) fuel JsNum.nan made = made + fuel := by
  induction fuel with
  | zero => intro made; rfl
  | succ f ih =>
    intro made
    simp only [xhrRun]
    split
    · rw [jsMinusOne, ih (made + 1)]
      omega
    · rename_i hc
      simp [retryCondHolds, jsOrOne] at hc

theorem xhrRun_undef_all500 (fuel : Nat) :
    xhrRun (fun _ => 500) fuel JsNum.undef 0 = fuel := by
  cases fuel with
  | zero => rfl
  | succ f =>
    simp only [xhrRun]
    split
    · rw [jsMinusOne, xhrRun_nan_all500 f 1]
      omega
    · rename_i hc
      simp [retryCondHolds, jsOrOne] at hc

theorem xhrRun_status_zero (retries : JsNum) (fuel made : Nat) :
    xhrRun (fun _ => 0) (fuel + 1) retries made = made + 1 := by
  simp only [xhrRun]
  split
  · rename_i hc
    simp at hc
  · rfl


theorem wpStep_inv (s : WallpaperState) (e : WpEvent) (h : WpInv s) :
    WpInv (wpStep s e) := by
  obtain ⟨h1, h2⟩ := h
  cases e with
  | back =>
    simp only [wpStep, goBack]
    split
    · exact ⟨by simp; omega, by simp; omega⟩
    · exact ⟨h1, h2⟩
  | forward =>
    simp only [wpStep, goForward]
    split
    · exact ⟨by simp; omega, by simp; omega⟩
    · exact ⟨h1, h2⟩
  | fetchOk u =>
    simp only [wpStep, applyFetchSuccess, spliceKeep]
    rw [if_neg (by omega)]
    exact ⟨by simp; omega, by simp [List.length_take]; omega⟩
  | fetchFail => exact ⟨h1, h2⟩

theorem foldl_wpStep_inv (evs : List WpEvent) :
    ∀ s, WpInv s → WpInv (evs.foldl wpStep s) := by
  induction evs with
  | nil => intro s h; exact h
  | cons e rest ih => intro s h; exact ih (wpStep s e) (wpStep_inv s e h)

theorem applyFetchSuccess_index_eq (s : WallpaperState) (u : String) (h : WpInv s) :
    (applyFetchSuccess s u).currentIndex
      = ((applyFetchSuccess s u).wallpaperHistory.length : Int) - 1 := by
  obtain ⟨h1, h2⟩ := h
  simp only [applyFetchSuccess, spliceKeep]
  rw [if_neg (by omega)]
  simp [List.length_take]
  omega

/-! ## Claim theorems -/

/-- Claim C1, counterexample: the declaration of `ajax`
(`src/unnamed/part_001`) returns `void`, not a promise, when `useFetch` is
`false`: at the concrete configuration `xhrExampleOptions` (the
event-driven transport) the caller gets no deferred result, refuting the
claim that every transport yields one. -/
theorem C1_counterexample :
    ajaxReturnKind xhrExampleOptions = ReturnKind.voidRet ∧
      ajaxReturnKind xhrExampleOptions ≠ ReturnKind.promiseVoid := by
  constructor
  · rfl
  · decide

/-- Claim C1, amended: `ajax` (and the verb wrappers, which forward the
options) returns a promise exactly when the resolved `useFetch` flag is
`true`; under the event-driven transport (`useFetch` false or absent) the
call returns `void` and outcomes are delivered only through the
`success`/`error` callbacks. -/
theorem C1_return_kind (o : AjaxOptions) :
    (ajaxReturnKind o = ReturnKind.promiseVoid ↔ o.useFetch.getD false = true) ∧
      (∀ u, getReturnKind u o = ajaxReturnKind o) := by
  constructor
  · cases h : o.useFetch.getD false <;> simp [ajaxReturnKind, h]
  · intro u
    rfl

/-- Claim C2 (code bug): evaluating the embedded retry loop
(`retryRequest`, blob.d.ts:240-251) at the failing input — `retries = 1`
against a server that always answers HTTP 500 — gives 3 attempts where the
claim (and the declaration's documentation of `retries`) allows at most 2;
with `retries` unset the chain consumes any amount of fuel, i.e. it
retries unboundedly (`undefined || 1` is 1, then `undefined - 1` is NaN
and `NaN || 1` is 1 forever); and a network failure or timeout
(`xhr.status = 0`) is never retried at all, since the retry condition
requires `xhr.status >= 400`. -/
theorem C2_retry_eval :
    xhrRun (fun _ => 500) 10 (JsNum.num 1) 0 = 3 ∧
    ¬(xhrRun (fun _ => 500) 10 (JsNum.num 1) 0 ≤ 1 + 1) ∧
    (∀ fuel, xhrRun (fun _ => 500) fuel JsNum.undef 0 = fuel) ∧
    (∀ retries fuel, xhrRun (fun _ => 0) (fuel + 1) retries 0 = 1) := by
  refine ⟨by decide, by decide, xhrRun_undef_all500, ?_⟩
  intro retries fuel
  exact xhrRun_status_zero retries fuel 0

/-- Claim C3: `get` and `deleteRequest` (blob.d.ts:269-279, 307-317)
serialize the supplied data object into a percent-encoded query string
appended to the URL and send no body; the query data `a ↦ 1, b ↦ "x y"`
produces the URL suffix `?a=1&b=x%20y` byte-for-byte. -/
theorem C3_query_serialization :
    queryStringOf [("a", "1"), ("b", "x y")] = "a=1&b=x%20y" ∧
    (getRequest "/items" [("a", "1"), ("b", "x y")]).url = "/items?a=1&b=x%20y" ∧
    (deleteRequest "/items" [("a", "1"), ("b", "x y")]).url = "/items?a=1&b=x%20y" ∧
    (∀ u kvs, (getRequest u kvs).body = none ∧ (deleteRequest u kvs).body = none ∧
      (getRequest u kvs).method = "GET" ∧ (deleteRequest u kvs).method = "DELETE") ∧
    (∀ u, fullUrlOf u [] = u) :=
  ⟨rfl, rfl, rfl, fun _ _ => ⟨rfl, rfl, rfl, rfl⟩, fun _ => rfl⟩

/-- Claim C4, counterexample: with a success callback configured, a 2xx
response declared `responseType: "blob"` makes the XHR `onload` handler
read `xhr.responseText`, which throws InvalidStateError with no
surrounding try/catch — a raw platform exception escapes the transport,
refuting the claim that every transport/decode error is intercepted and
converted into a callback delivery. -/
theorem C4_counterexample :
    settleOk (xhrOnload true true (some RespType.blob) 200 "OK" "payload") = false :=
  rfl

/-- Claim C4, amended: on the fetch transport every transport- and
decode-level failure is intercepted by `ajaxFetch`'s catch and delivered
through the error callback when one is configured (only logged otherwise);
on the XHR transport network errors, timeouts and non-2xx statuses are
likewise routed through `handleError`, but a 2xx response with a malformed
JSON body is handed to the success callback as `null`, and a 2xx response
with responseType blob/arraybuffer/document throws out of the `onload`
handler. -/
theorem C4_error_routing (hasS hasE : Bool) (rt : Option RespType) :
    (∀ outcome, settleOk (ajaxFetchExc hasS hasE rt outcome) = true) ∧
    (∀ outcome l msg, ajaxFetchExc hasS hasE rt outcome = Except.ok l →
      Delivered.errorCb msg ∈ l → hasE = true) ∧
    (∀ outcome l msg, ajaxFetchExc hasS hasE rt outcome = Except.ok l →
      Delivered.logged msg ∈ l → hasE = false) ∧
    (xhrSettle hasS hasE rt XhrEvt.netError =
      Except.ok [handleError hasE "Request failed due to network error."]) ∧
    (∀ ms, xhrSettle hasS hasE rt (XhrEvt.timedOut ms) =
      Except.ok [handleError hasE ("Request timed out after " ++ toString ms ++ "ms")]) ∧
    (∀ st stT body, 300 ≤ st →
      xhrSettle hasS hasE rt (XhrEvt.loaded st stT body) =
        Except.ok [handleError hasE
          ("Request failed with status " ++ toString st ++ ": " ++ stT)]) ∧
    (∀ body, parseJson body = none →
      xhrOnload true hasE (some RespType.json) 200 "OK" body =
        Except.ok [Delivered.successNull]) := by
  refine ⟨?_, ?_, ?_, rfl, fun _ => rfl, ?_, ?_⟩
  · intro outcome
    cases outcome with
    | rejected err => rfl
    | resp ok st body =>
      cases hd : handleFetchResponse rt ok st body <;>
        simp [ajaxFetchExc, hd, settleOk]
  · intro outcome l msg hEq hMem
    cases outcome with
    | rejected err =>
      simp only [ajaxFetchExc] at hEq
      injection hEq with h
      subst h
      simp only [List.mem_singleton] at hMem
      cases hasE
      · simp [handleError] at hMem
      · rfl
    | resp ok st body =>
      simp only [ajaxFetchExc] at hEq
      cases hd : handleFetchResponse rt ok st body with
      | ok v =>
        rw [hd] at hEq
        injection hEq with h
        subst h
        cases hasS <;> simp at hMem
      | error e =>
        rw [hd] at hEq
        injection hEq with h
        subst h
        simp only [List.mem_singleton] at hMem
        cases hasE
        · simp [handleError] at hMem
        · rfl
  · intro outcome l msg hEq hMem
    cases outcome with
    | rejected err =>
      simp only [ajaxFetchExc] at hEq
      injection hEq with h
      subst h
      simp only [List.mem_singleton] at hMem
      cases hasE
      · rfl
      · simp [handleError] at hMem
    | resp ok st body =>
      simp only [ajaxFetchExc] at hEq
      cases hd : handleFetchResponse rt ok st body with
      | ok v =>
        rw [hd] at hEq
        injection hEq with h
        subst h
        cases hasS <;> simp at hMem
      | error e =>
        rw [hd] at hEq
        injection hEq with h
        subst h
        simp only [List.mem_singleton] at hMem
        cases hasE
        · rfl
        · simp [handleError] at hMem
  · intro st stT body hst
    simp only [xhrSettle, xhrOnload]
    rw [if_neg (by simp; omega)]
  · intro body hB
    simp [xhrOnload, hB]

/-- Witness for the amended C4 at concrete inputs: a rejected fetch with an
error callback settles without an escaping exception and routes to the
error callback; a 2xx malformed-JSON body on the XHR path goes to the
success callback as `null`. -/
theorem C4_error_routing_witness :
    settleOk (ajaxFetchExc true true (some RespType.json)
      (FetchOutcome.rejected "TypeError: Failed to fetch")) = true ∧
    (true : Bool) = true ∧
    xhrOnload true true (some RespType.json) 200 "OK" "[1," =
      Except.ok [Delivered.successNull] := by
  have h := C4_error_routing true true (some RespType.json)
  refine ⟨h.1 (FetchOutcome.rejected "TypeError: Failed to fetch"), ?_, ?_⟩
  · exact h.2.1 (FetchOutcome.rejected "TypeError: Failed to fetch")
      [Delivered.errorCb "TypeError: Failed to fetch"] "TypeError: Failed to fetch"
      rfl (by simp)
  · exact h.2.2.2.2.2.2 "[1," rfl

/-- Claim C5, counterexample: a call whose cancellation token is already
signaled (`hasAbortSignal := true`) on the default event-driven transport
still starts attempts — with `retries = 3` and persistent 500s it runs 5
attempts — because `ajaxXHR` and `retryRequest` never read
`options.abortSignal`. -/
theorem C5_counterexample :
    xhrAttemptsRun (fun _ => 500) 10
      { retries := some 3, hasAbortSignal := true } = 5 ∧
    xhrAttemptsRun (fun _ => 500) 10
      { retries := some 3, hasAbortSignal := true } ≠ 0 :=
  ⟨by decide, by decide⟩

/-- Claim C5, amended: the abort signal is forwarded only to the fetch
transport's request config (blob.d.ts:155); the XHR transport and its
retry chain never observe it, so on the event-driven transport a signaled
token neither prevents an attempt from starting nor suppresses retries —
the attempt chain is independent of `hasAbortSignal`. On the fetch
transport an abort rejection is caught and delivered through the error
callback as the platform abort error (it is not converted into anything
else, in particular not into the network-error message). -/
theorem C5_abort_unobserved :
    (∀ statusOf fuel (o : AjaxOptions) (b : Bool),
      xhrAttemptsRun statusOf fuel { o with hasAbortSignal := b } =
        xhrAttemptsRun statusOf fuel o) ∧
    (∀ (hasS hasE : Bool) rt err,
      ajaxFetchExc hasS hasE rt (FetchOutcome.rejected err) =
        Except.ok [handleError hasE err]) :=
  ⟨fun _ _ _ _ => rfl, fun _ _ _ _ => rfl⟩

/-- Claim C6, counterexample: the decoder does not return a parsed document
for `"document"` — `handleFetchResponse` (blob.d.ts:210-224) has no
document case and returns the raw text — and on the XHR transport a 2xx
malformed-JSON body is delivered to the success callback as `null`, not as
a DecodeError failure. -/
theorem C6_counterexample :
    handleFetchResponse (some RespType.document) true 200 "<p>hi</p>" =
      Except.ok (DecodedBody.text "<p>hi</p>") ∧
    handleFetchResponse (some RespType.document) true 200 "<p>hi</p>" ≠
      Except.ok (DecodedBody.document ⟨"<p>hi</p>"⟩) ∧
    xhrOnload true true (some RespType.json) 200 "OK" "[1," =
      Except.ok [Delivered.successNull] := by
  refine ⟨rfl, ?_, rfl⟩
  intro h
  rw [show handleFetchResponse (some RespType.document) true 200 "<p>hi</p>" =
      Except.ok (DecodedBody.text "<p>hi</p>") from rfl] at h
  injection h with h2
  exact DecodedBody.noConfusion h2

/-- Claim C6, amended: on the fetch transport the decoder returns parsed
JSON for `"json"` (rejecting on a malformed body, which the enclosing
catch then routes to the error callback as the parser's own error, with no
DecodeError tag), the bytes for `"blob"` and `"arraybuffer"`, and the raw
text for `"text"`, for an undeclared type, and also for `"document"`
(which has no case of its own); on the XHR transport only `"json"` uses
the decoded response — a malformed body yields `null` delivered to the
success callback — and every other declared type reads `responseText`,
which throws for blob, arraybuffer and document. -/
theorem C6_decoder_actual :
    (∀ b, handleFetchResponse (some RespType.text) true 200 b =
      Except.ok (DecodedBody.text b)) ∧
    (∀ b, handleFetchResponse none true 200 b = Except.ok (DecodedBody.text b)) ∧
    (∀ b, handleFetchResponse (some RespType.document) true 200 b =
      Except.ok (DecodedBody.text b)) ∧
    (∀ b j, parseJson b = some j →
      handleFetchResponse (some RespType.json) true 200 b =
        Except.ok (DecodedBody.json j)) ∧
    (∀ b, parseJson b = none →
      handleFetchResponse (some RespType.json) true 200 b =
        Except.error "SyntaxError: Unexpected token in JSON") ∧
    (∀ b, handleFetchResponse (some RespType.blob) true 200 b =
      Except.ok (DecodedBody.blob (strBytes b))) ∧
    (∀ b, handleFetchResponse (some RespType.arraybuffer) true 200 b =
      Except.ok (DecodedBody.arraybuffer (strBytes b))) ∧
    (∀ (hasE : Bool) b, parseJson b = none →
      xhrOnload true hasE (some RespType.json) 200 "OK" b =
        Except.ok [Delivered.successNull]) ∧
    (∀ (hasE : Bool) b,
      settleOk (xhrOnload true hasE (some RespType.blob) 200 "OK" b) = false) := by
  refine ⟨fun _ => rfl, fun _ => rfl, fun _ => rfl, ?_, ?_, fun _ => rfl, fun _ => rfl,
    ?_, fun _ _ => rfl⟩
  · intro b j hj
    simp [handleFetchResponse, hj]
  · intro b hj
    simp [handleFetchResponse, hj]
  · intro hasE b hj
    simp [xhrOnload, hj]

/-- Witness for the amended C6: the well-formed body `[1,2]` decodes to its
parsed JSON value and the malformed body `[1,` makes the platform parser
reject. -/
theorem C6_decoder_actual_witness :
    handleFetchResponse (some RespType.json) true 200 "[1,2]" =
      Except.ok (DecodedBody.json (Json.arr [Json.num 1, Json.num 2])) ∧
    handleFetchResponse (some RespType.json) true 200 "[1," =
      Except.error "SyntaxError: Unexpected token in JSON" :=
  ⟨C6_decoder_actual.2.2.2.1 "[1,2]" (Json.arr [Json.num 1, Json.num 2]) rfl,
   C6_decoder_actual.2.2.2.2.1 "[1," rfl⟩

/-- Claim C7 (code bug): the code applies no `retries` default
(blob.d.ts:242: `attempt <= (options.retries || 1)`). Evaluating the
embedded retry loop at the failing input — every optional field omitted,
server always answering HTTP 500 — the chain keeps retrying, consuming
all fuel (5 attempts in fuel 5, and so on unboundedly: `undefined || 1` is
1, so a retry is scheduled, and the next budget `undefined - 1` is NaN,
which keeps the condition true forever) instead of the single attempt a
default retry count of 0 would give. The remaining defaults of the claim
do hold in the code: an absent `useFetch` selects the event-driven
transport, and an absent `responseType` is decoded as text. -/
theorem C7_default_retry_eval :
    jsRetriesOf {} = JsNum.undef ∧
    retryCondHolds JsNum.undef = true ∧
    xhrRun (fun _ => 500) 5 JsNum.undef 0 = 5 ∧
    ¬(xhrRun (fun _ => 500) 5 JsNum.undef 0 = 1) ∧
    (∀ fuel, xhrRun (fun _ => 500) fuel JsNum.undef 0 = fuel) ∧
    ajaxDispatch { method := some "GET", url := some "/x" } =
      DispatchAction.callTransport Transport.xhrTransport ∧
    (∀ b, xhrOnload true true none 200 "OK" b =
      Except.ok [Delivered.success (DecodedBody.text b)]) ∧
    (∀ b, handleFetchResponse none true 200 b = Except.ok (DecodedBody.text b)) :=
  ⟨rfl, rfl, by decide, by decide, xhrRun_undef_all500, rfl, fun _ => rfl, fun _ => rfl⟩

/-- Claim C8, counterexample: with neither `url` nor `method` present (the
empty options object), `ajax` still calls the event-driven transport — one
transport call starts and no configuration error is raised, refuting the
fail-fast claim. -/
theorem C8_counterexample :
    ajaxDispatch {} = DispatchAction.callTransport Transport.xhrTransport ∧
    transportCallsStarted (ajaxDispatch {}) = 1 ∧
    ajaxDispatch {} ≠ DispatchAction.configFailure :=
  ⟨rfl, rfl, by decide⟩

/-- Claim C8, amended: `ajax` performs no `url`/`method` validation at all
— for every configuration, including one with neither field present, it
immediately starts exactly one call into the selected transport
(event-driven by default) and never raises a configuration error. -/
theorem C8_no_validation (o : AjaxOptions) :
    ajaxDispatch o =
      DispatchAction.callTransport (selectTransport (o.useFetch.getD false)) ∧
    transportCallsStarted (ajaxDispatch o) = 1 ∧
    ajaxDispatch o ≠ DispatchAction.configFailure := by
  refine ⟨rfl, rfl, ?_⟩
  intro h
  simp [ajaxDispatch] at h


/-- Claim C9: from the initial state (empty history, index `-1`), every
sequence of back clicks, forward clicks, and fetch completions keeps
`-1 ≤ currentIndex ≤ wallpaperHistory.length - 1`; `goBack` leaves the
state unchanged when `currentIndex ≤ 0`; and a fetch success truncates the
forward history and pushes, leaving `currentIndex` at the new last slot. -/
theorem C9_history_invariant :
    (∀ evs, WpInv (runEvents evs)) ∧
    (∀ s : WallpaperState, s.currentIndex ≤ 0 → goBack s = s) ∧
    (∀ s u, WpInv s → (applyFetchSuccess s u).currentIndex
      = ((applyFetchSuccess s u).wallpaperHistory.length : Int) - 1) := by
  refine ⟨?_, ?_, ?_⟩
  · intro evs
    exact foldl_wpStep_inv evs initWallpaperState
      ⟨by simp [initWallpaperState], by simp [initWallpaperState]⟩
  · intro s h
    unfold goBack
    rw [if_neg (by omega)]
  · intro s u h
    exact applyFetchSuccess_index_eq s u h

/-- Witness for C9: a fetch success, a forward click, and a back click from
the initial state respect the invariant; `goBack` is the identity at index
0; a fetch success from index 0 of a one-element history lands on the last
slot. -/
theorem C9_history_invariant_witness :
    WpInv (runEvents [WpEvent.fetchOk "u", WpEvent.forward, WpEvent.back]) ∧
    goBack { wallpaperHistory := ["a"], currentIndex := 0 }
      = { wallpaperHistory := ["a"], currentIndex := 0 } ∧
    (applyFetchSuccess { wallpaperHistory := ["a"], currentIndex := 0 } "b").currentIndex
      = ((applyFetchSuccess { wallpaperHistory := ["a"], currentIndex := 0 } "b").wallpaperHistory.length : Int) - 1 := by
  refine ⟨?_, ?_, ?_⟩
  · exact C9_history_invariant.1 [WpEvent.fetchOk "u", WpEvent.forward, WpEvent.back]
  · exact C9_history_invariant.2.1 { wallpaperHistory := ["a"], currentIndex := 0 }
      (by decide)
  · exact C9_history_invariant.2.2 { wallpaperHistory := ["a"], currentIndex := 0 } "b"
      ⟨by decide, by decide⟩

/-- Claim C10: with pure (non-throwing) caller callbacks, `setAttribute`
never lets an exception escape: a non-HTMLElement target, a non-object
attribute argument, and any per-attribute validation or native-set error
are all delivered to `onError` (default: console logging) and the function
returns normally. -/
theorem C10_setAttribute_no_throw (elemIsHtml : Bool)
    (nsa nsd : String → String → Except String Unit) (attr : AttrArg)
    (o : SetAttrOptions) :
    setAttrOk (setAttributeExc elemIsHtml nsa nsd attr o) = true ∧
    (elemIsHtml = false → setAttributeExc elemIsHtml nsa nsd attr o =
      Except.ok { errorsDelivered :=
        ["TypeError: Provided element is not a valid HTMLElement."] }) ∧
    (∀ d, elemIsHtml = true → attr = AttrArg.nonObject d →
      setAttributeExc elemIsHtml nsa nsd attr o =
        Except.ok { errorsDelivered :=
          ["Error: Attribute name must be a non-empty string."] }) ∧
    (setAttributeExc true (fun _ _ => Except.ok ()) (fun _ _ => Except.ok ())
        (AttrArg.entries [("k", "v")]) { validate := some (fun _ _ => false) } =
      Except.ok { errorsDelivered := ["Validation failed for attribute: k with value: v"]
                  onAttributeSetCalls := 1 }) := by
  refine ⟨?_, ?_, ?_, ?_⟩
  · cases h : setAttrBody elemIsHtml nsa nsd attr o <;>
      simp [setAttributeExc, h, setAttrOk]
  · intro h
    subst h
    rfl
  · intro d h1 h2
    subst h1
    subst h2
    rfl
  · rfl

/-- Witness for C10: a non-HTMLElement target and a non-object attribute
argument each produce a normal return with the error delivered to
`onError`. -/
theorem C10_setAttribute_no_throw_witness :
    setAttrOk (setAttributeExc false (fun _ _ => Except.ok ())
        (fun _ _ => Except.ok ()) (AttrArg.entries []) {}) = true ∧
    setAttributeExc false (fun _ _ => Except.ok ()) (fun _ _ => Except.ok ())
        (AttrArg.entries []) {} =
      Except.ok { errorsDelivered :=
        ["TypeError: Provided element is not a valid HTMLElement."] } ∧
    setAttributeExc true (fun _ _ => Except.ok ()) (fun _ _ => Except.ok ())
        (AttrArg.nonObject "number") {} =
      Except.ok { errorsDelivered :=
        ["Error: Attribute name must be a non-empty string."] } := by
  have h1 := C10_setAttribute_no_throw false (fun _ _ => Except.ok ())
    (fun _ _ => Except.ok ()) (AttrArg.entries []) {}
  have h2 := C10_setAttribute_no_throw true (fun _ _ => Except.ok ())
    (fun _ _ => Except.ok ()) (AttrArg.nonObject "number") {}
  exact ⟨h1.1, h1.2.1 rfl, h2.2.2.1 "number" rfl rfl⟩

end Wallpaper001
